/-
Verification of the pytest-aitest agent execution runtime.

This file shallowly embeds the parts of the repository relevant to the
checked claims:

* `src/pytest_aitest/execution/pydantic_adapter.py`
  (`build_model_from_string`, `_build_azure_model`, `build_system_prompt`,
   `build_usage_limits`, `adapt_result`, `_extract_turns`,
   `_find_tool_result`),
* `src/pytest_aitest/execution/clarification.py` (`check_clarification`),
* `src/pytest_aitest/models/extensions.py`
  (`AgentResult.is_session_continuation`).

The engine turn loop (`execution/engine.py`), the server supervisor with
its readiness policies (`execution/servers.py`), and the retry/timeout
governor (`core/errors.py` and its caller) are part of the repository but
are not present under `src/`; where a claim depends on them they are
modelled from the spec, and the corresponding definitions carry a
`Modelled from the spec:` note in their doc comment.

Python machine-level details are modelled explicitly:
* string truthiness (`if s:` means `s` is neither `None` nor `""`),
* `x or y` on strings/options returns `x` when truthy, else `y`,
* `str.strip` removes ASCII whitespace from both ends (`pyStrip`),
* `json.loads` is an external oracle, passed as a parameter
  `jsonParse : String → Option (List (String × String))`.
-/

import Mathlib

set_option autoImplicit false

namespace PytestAitest

/-! ### Python string primitives -/

/-- ASCII whitespace as recognised by Python's `str.strip`
(space, tab, linefeed, carriage return, vertical tab, form feed). -/
def isPyWhitespace (c : Char) : Bool :=
  c == ' ' || c == '\t' || c == '\n' || c == '\r' || c == '\x0b' || c == '\x0c'

/-- Python `str.strip()`: drop leading and trailing whitespace. -/
def pyStrip (s : String) : String :=
  String.mk (((s.toList.dropWhile isPyWhitespace).reverse.dropWhile isPyWhitespace).reverse)

/-- Python `str.upper()` (ASCII case mapping). -/
def pyUpper (s : String) : String :=
  String.mk (s.toList.map Char.toUpper)

/-- Python `s.startswith(pre)`. -/
def pyStartsWith (s pre : String) : Bool :=
  pre.toList.isPrefixOf s.toList

/-- Python `"sep".join(parts)`. -/
def joinSep (sep : String) : List String → String
  | [] => ""
  | [x] => x
  | x :: y :: xs => x ++ sep ++ joinSep sep (y :: xs)

/-- Python truthiness of an optional string (`None` and `""` are falsy). -/
def strTruthy : Option String → Bool
  | none => false
  | some s => s ≠ ""

/-- Python `a or b` on optional strings: `a` when truthy, else `b`. -/
def pyOr (a b : Option String) : Option String :=
  if strTruthy a then a else b

/-- Python `s.split(sep, 1)` on character lists: the part before the first
occurrence of `c` and the part after it (whole list and `[]` when absent). -/
def splitCharList (c : Char) : List Char → List Char × List Char
  | [] => ([], [])
  | x :: xs =>
    if x = c then ([], xs)
    else
      let p := splitCharList c xs
      (x :: p.1, p.2)

/-! ### Configuration data model

`core/agent.py` is not under `src/`; the `Agent` fields below are the ones
the adapter reads (`agent.skill`, `agent.skill.content`,
`agent.system_prompt`, `agent.max_turns`). -/

/-- A skill: reusable instruction content prepended to the system prompt. -/
structure Skill where
  content : String
  deriving Repr, DecidableEq

/-- The agent configuration fields used by the adapter. -/
structure Agent where
  skill : Option Skill
  system_prompt : Option String
  max_turns : Nat
  deriving Repr, DecidableEq

/-- PydanticAI `UsageLimits` as used by the adapter (only `request_limit`
is ever set). -/
structure UsageLimits where
  request_limit : Nat
  deriving Repr, DecidableEq

/-- `build_usage_limits` from `pydantic_adapter.py`:
`UsageLimits(request_limit=agent.max_turns)`. -/
def build_usage_limits (agent : Agent) : UsageLimits :=
  { request_limit := agent.max_turns }

/-- `build_system_prompt` from `pydantic_adapter.py`: collect the skill
content (when a skill is configured) and then the explicit system prompt
(when truthy, i.e. neither `None` nor empty), join with a blank line,
and return `None` when there are no parts. -/
def build_system_prompt (agent : Agent) : Option String :=
  let parts : List String :=
    (match agent.skill with
      | some sk => [sk.content]
      | none => []) ++
    (match agent.system_prompt with
      | some sp => if sp = "" then [] else [sp]
      | none => [])
  if parts = [] then none else some (joinSep "\n\n" parts)

/-! ### Model-string resolution (`build_model_from_string`) -/

/-- The outcome of model resolution: either a constructed Azure OpenAI
model (deployment name, endpoint, whether API-key auth was selected) or a
plain model identifier string handed to PydanticAI. -/
inductive BuiltModel
  | azure (deployment : String) (endpoint : String) (useApiKey : Bool)
  | name (s : String)
  deriving Repr, DecidableEq

/-- The error message raised by `_build_azure_model` when no endpoint
variable is set. -/
def azureEndpointErr : String :=
  "AZURE_API_BASE or AZURE_OPENAI_ENDPOINT environment variable is required for Azure OpenAI models"

/-- `_build_azure_model` from `pydantic_adapter.py`, over an environment
oracle `env : String → Option String` (`os.environ.get`).  Raising
`ValueError` is modelled as `Except.error`. -/
def _build_azure_model (env : String → Option String) (model_str : String) :
    Except String BuiltModel :=
  let deployment := if pyStartsWith model_str "azure/" then model_str.drop 6 else model_str
  let azure_endpoint := pyOr (env "AZURE_API_BASE") (env "AZURE_OPENAI_ENDPOINT")
  if strTruthy azure_endpoint then
    let api_key := pyOr (env "AZURE_API_KEY") (env "AZURE_OPENAI_API_KEY")
    .ok (.azure deployment (azure_endpoint.getD "") (strTruthy api_key))
  else
    .error azureEndpointErr

/-- `build_model_from_string` from `pydantic_adapter.py`: `azure/` model
strings go through `_build_azure_model`; other strings containing `/` are
rewritten `provider/model → provider:model`; anything else is returned
unchanged. -/
def build_model_from_string (env : String → Option String) (model_str : String) :
    Except String BuiltModel :=
  if pyStartsWith model_str "azure/" then
    _build_azure_model env model_str
  else if model_str.toList.contains '/' then
    let p := splitCharList '/' model_str.toList
    .ok (.name (String.mk p.1 ++ ":" ++ String.mk p.2))
  else
    .ok (.name model_str)

/-! ### Clarification check (`clarification.py`) -/

/-- The observable outcome of the judge LLM call inside the time box:
a returned answer text (`message.content or ""`), a `TimeoutError` from
the time box, or any other exception. -/
inductive JudgeOutcome
  | answer (text : String)
  | timeout
  | failure
  deriving Repr, DecidableEq

/-- `check_clarification` from `clarification.py`, over a judge outcome.
Returns the classification result together with whether a judge call was
issued at all.  Blank input short-circuits to `false` without calling the
judge; a judge answer is stripped, upper-cased and tested for the prefix
`YES`; a timeout or any exception fails open to `false`. -/
def check_clarification (response_text : String) (judge : JudgeOutcome) :
    Bool × Bool :=
  if response_text = "" ∨ pyStrip response_text = "" then
    (false, false)
  else
    match judge with
    | .answer a => (pyStartsWith (pyUpper (pyStrip a)) "YES", true)
    | .timeout => (false, true)
    | .failure => (false, true)

/-! ### PydanticAI message model and turn extraction (`_extract_turns`) -/

/-- The tool-call arguments value on a `ToolCallPart`: a raw JSON string,
an already-parsed dict, or anything else (Python falls back to `{}`). -/
inductive ArgsVal
  | str (s : String)
  | dict (d : List (String × String))
  | other
  deriving Repr, DecidableEq

/-- The parts of a PydanticAI `ModelRequest` that `_extract_turns` looks
at: user prompts, system prompts and tool returns. -/
inductive RequestPart
  | userPrompt (content : String)
  | sysPrompt (content : String)
  | toolReturn (tool_call_id : String) (content : String)
  deriving Repr, DecidableEq

/-- The parts of a PydanticAI `ModelResponse` that `_extract_turns` looks
at: tool-call requests, assistant text, and unhandled part types. -/
inductive ResponsePart
  | toolCall (tool_name : String) (args : ArgsVal) (tool_call_id : Option String)
  | text (content : String)
  | other
  deriving Repr, DecidableEq

/-- A PydanticAI `ModelMessage`: a request to the model or a response
from it. -/
inductive ModelMessage
  | request (parts : List RequestPart)
  | response (parts : List ResponsePart)
  deriving Repr, DecidableEq

/-- `ToolCall` from `core/result.py` (file not under `src/`; the fields
are the ones the adapter constructs, plus the `error` field of the spec's
ToolCallRecord, which the adapter never sets and which defaults to
`None`). -/
structure ToolCall where
  name : String
  arguments : List (String × String)
  result : Option String
  error : Option String
  deriving Repr, DecidableEq

/-- `Turn` from `core/result.py`: role, text content, tool calls (the
adapter leaves `tool_calls` at its default `[]` for user turns). -/
structure Turn where
  role : String
  content : String
  tool_calls : List ToolCall
  deriving Repr, DecidableEq

/-- Argument parsing inside `_extract_turns`: a string is fed to
`json.loads` (the oracle `jsonParse`), falling back to `{"raw": s}` on a
parse error; a dict is kept; anything else becomes `{}`. -/
def parseArgs (jsonParse : String → Option (List (String × String))) :
    ArgsVal → List (String × String)
  | .str s =>
    match jsonParse s with
    | some d => d
    | none => [("raw", s)]
  | .dict d => d
  | .other => []

/-- `_find_tool_result` from `pydantic_adapter.py`: the first
`ToolReturnPart` in any request whose id matches the call id. -/
def _find_tool_result (messages : List ModelMessage) (tool_call_id : Option String) :
    Option String :=
  match tool_call_id with
  | none => none
  | some id =>
    messages.findSome? fun msg =>
      match msg with
      | .request parts =>
        parts.findSome? fun part =>
          match part with
          | .toolReturn rid content => if rid = id then some content else none
          | _ => none
      | .response _ => none

/-- `_extract_turns` from `pydantic_adapter.py`: each `UserPromptPart` of
a request becomes a user turn (system prompts and tool returns are
skipped); each response becomes one assistant turn holding its
concatenated text and its tool calls, with each call's result looked up
by id across the whole history. -/
def _extract_turns (jsonParse : String → Option (List (String × String)))
    (messages : List ModelMessage) : List Turn :=
  messages.flatMap fun msg =>
    match msg with
    | .request parts =>
      parts.filterMap fun part =>
        match part with
        | .userPrompt content => some { role := "user", content := content, tool_calls := [] }
        | _ => none
    | .response parts =>
      let tool_calls := parts.filterMap fun part =>
        match part with
        | .toolCall name args id =>
          some { name := name, arguments := parseArgs jsonParse args,
                 result := _find_tool_result messages id, error := none }
        | _ => none
      let text_content := joinSep "" (parts.filterMap fun part =>
        match part with
        | .text s => some s
        | _ => none)
      [{ role := "assistant", content := text_content, tool_calls := tool_calls }]

/-! ### AgentResult and the result adapter (`adapt_result`) -/

/-- Token usage as recorded by `adapt_result`. -/
structure TokenUsage where
  prompt : Nat
  completion : Nat
  deriving Repr, DecidableEq

/-- `AgentResult` from `core/result.py` / `models/_generated.py` (files
not under `src/`): the fields are those `adapt_result` sets, plus the
`error` field of the spec's data model (optional, `None` on success).
Durations and costs are modelled as naturals. -/
structure AgentResult where
  turns : List Turn
  success : Bool
  error : Option String
  duration_ms : Nat
  token_usage : TokenUsage
  cost_usd : Nat
  _messages : List ModelMessage
  session_context_count : Option Nat
  available_tools : List String
  skill_info : Option String
  effective_system_prompt : String
  deriving Repr, DecidableEq

/-- The structured result of a PydanticAI run as read by `adapt_result`:
`all_messages()` and `usage()`. -/
structure PydanticRunResult where
  all_messages : List ModelMessage
  input_tokens : Nat
  output_tokens : Nat
  deriving Repr, DecidableEq

/-- `adapt_result` from `pydantic_adapter.py`: convert a successful
PydanticAI run into an `AgentResult` (`success=True`, cost `0`, duration
from the clock, turns extracted from the message history, and the given
`session_context_count`). -/
def adapt_result (jsonParse : String → Option (List (String × String)))
    (pr : PydanticRunResult) (now start_time : Nat)
    (available_tools : List String) (skill_info : Option String)
    (effective_system_prompt : String) (session_context_count : Nat) : AgentResult :=
  { turns := _extract_turns jsonParse pr.all_messages
    success := true
    error := none
    duration_ms := now - start_time
    token_usage := { prompt := pr.input_tokens, completion := pr.output_tokens }
    cost_usd := 0
    _messages := pr.all_messages
    session_context_count := some session_context_count
    available_tools := available_tools
    skill_info := skill_info
    effective_system_prompt := effective_system_prompt }

/-- `AgentResult.is_session_continuation` from `models/extensions.py`:
`(self.session_context_count or 0) > 0`. -/
def is_session_continuation (r : AgentResult) : Bool :=
  decide (0 < r.session_context_count.getD 0)

/-! ### Engine turn loop

Modelled from the spec: `execution/engine.py` is not under `src/` (only
its import in `execution/__init__.py` is).  The spec gives the state
machine `AWAITING_MODEL → DISPATCHING_TOOLS → … → DONE /
TURN_LIMIT_EXCEEDED / FAILED` and the per-invocation turn budget. -/

/-- Modelled from the spec: the terminal states of one engine
invocation. -/
inductive EngineState
  | DONE
  | TURN_LIMIT_EXCEEDED
  | FAILED
  deriving Repr, DecidableEq

/-- Modelled from the spec: what the language-model provider does on the
k-th round-trip — request tool calls, finish with plain text, or fail at
the provider level. -/
inductive ProviderResponse
  | toolCalls (calls : List (String × String))
  | finalText (text : String)
  | providerError (msg : String)
  deriving Repr, DecidableEq

/-- Modelled from the spec: the engine turn loop.  `budget` is the
remaining turn allowance and `calls` counts model round-trips performed
so far.  A text response completes (`DONE`), a provider error fails
immediately (`FAILED`), tool calls are dispatched and the loop repeats;
an exhausted budget is `TURN_LIMIT_EXCEEDED`.  Returns the terminal state
and the total number of model round-trips. -/
def runLoop (responses : Nat → ProviderResponse) :
    Nat → Nat → EngineState × Nat
  | 0, calls => (.TURN_LIMIT_EXCEEDED, calls)
  | budget + 1, calls =>
    match responses calls with
    | .finalText _ => (.DONE, calls + 1)
    | .providerError _ => (.FAILED, calls + 1)
    | .toolCalls _ => runLoop responses budget (calls + 1)

/-- Modelled from the spec: `run(prompt, agentConfig, priorMessages)`
builds the final `AgentResult`: success with no error for `DONE`, and a
failed result (`success = false`, populated error) for
`TURN_LIMIT_EXCEEDED` and `FAILED`, never an unhandled exception.  The
session context count is the number of turns carried in from
`priorMessages`. -/
def engineRun (jsonParse : String → Option (List (String × String)))
    (responses : Nat → ProviderResponse) (maxTurns : Nat)
    (priorMessages : List ModelMessage) : AgentResult :=
  let outcome := runLoop responses maxTurns 0
  let sessionCount := (_extract_turns jsonParse priorMessages).length
  let base : AgentResult :=
    { turns := _extract_turns jsonParse priorMessages
      success := true
      error := none
      duration_ms := 0
      token_usage := { prompt := 0, completion := 0 }
      cost_usd := 0
      _messages := priorMessages
      session_context_count := some sessionCount
      available_tools := []
      skill_info := none
      effective_system_prompt := "" }
  match outcome.1 with
  | .DONE => base
  | .TURN_LIMIT_EXCEEDED =>
    { base with success := false, error := some "Turn limit exceeded" }
  | .FAILED =>
    { base with success := false, error := some "Provider error" }

/-! ### Retry & timeout governor

Modelled from the spec: the governor module (`core/errors.py` and its
caller) is not under `src/`; only the import of `EngineTimeoutError` in
`core/__init__.py` is.  The spec defines `execute(engineCall,
retryConfig, deadline)` with a hard wall-clock deadline and a bounded
classified retry loop. -/

/-- Modelled from the spec: the error taxonomy seen by the governor
(`EngineTimeoutError`, `ProviderError`, `ServerStartError`). -/
inductive GovError
  | engineTimeout
  | providerError (msg : String)
  | serverStartError (msg : String)
  deriving Repr, DecidableEq

/-- Modelled from the spec: `RetryConfig` — max attempts, base delay,
backoff multiplier, and the predicate classifying an error as
retryable. -/
structure RetryConfig where
  maxAttempts : Nat
  baseDelay : Nat
  backoffMultiplier : Nat
  retryable : GovError → Bool

/-- The outcome of one governed engine attempt. -/
inductive AttemptOutcome
  | ok (r : AgentResult)
  | err (e : GovError)
  deriving Repr, DecidableEq

/-- Modelled from the spec: the hard wall-clock deadline.  If the
in-flight call's duration exceeds the deadline it is cancelled and any
partial outcome — even a successful one — is discarded in favour of
`EngineTimeoutError`. -/
def applyDeadline (deadline duration : Nat) (outcome : AttemptOutcome) :
    AttemptOutcome :=
  if deadline < duration then .err .engineTimeout else outcome

/-- Modelled from the spec: the governor's bounded retry loop.  `i` is
the index of the current attempt, `fuel` bounds the remaining retries.
A success returns; an `EngineTimeoutError` is always fatal and never
retried, regardless of the retry predicate; any other error is retried
while the predicate accepts it and attempts remain.  Returns the final
outcome and the number of attempts performed. -/
def retryLoop (cfg : RetryConfig) (attempts : Nat → AttemptOutcome) :
    Nat → Nat → AttemptOutcome × Nat
  | 0, i => (attempts i, i + 1)
  | fuel + 1, i =>
    match attempts i with
    | .ok r => (.ok r, i + 1)
    | .err .engineTimeout => (.err .engineTimeout, i + 1)
    | .err e =>
      if cfg.retryable e = true ∧ i + 1 < cfg.maxAttempts then
        retryLoop cfg attempts fuel (i + 1)
      else
        (.err e, i + 1)

/-- Modelled from the spec: `execute(engineCall, retryConfig, deadline)`
runs the retry loop from attempt `0` with at most `maxAttempts`
attempts. -/
def executeGov (cfg : RetryConfig) (attempts : Nat → AttemptOutcome) :
    AttemptOutcome × Nat :=
  retryLoop cfg attempts cfg.maxAttempts 0

/-! ### Readiness policy ready-on-tools

Modelled from the spec: `execution/servers.py` is not under `src/` (only
its import and its tests are).  The spec: poll `listTools()` at a fixed
interval until every required name is present in the discovered set or
the deadline elapses; partial availability never satisfies readiness; a
server that never exposes the required tools fails with
`ServerStartError` exactly at the deadline, never hangs. -/

/-- Every required tool name is present in the discovered set. -/
def allPresent (required discovered : List String) : Bool :=
  required.all fun n => discovered.contains n

/-- Modelled from the spec: one polling loop step.  `listTools` gives the
discovered tool names at a given elapsed time, `elapsed` is the time of
the current poll.  If all required tools are present, readiness is
reached at `elapsed`; otherwise the next poll happens `interval` later if
that is still before the deadline, else the policy fails exactly at the
deadline.  `fuel` is a structural bound never hit for positive
intervals. -/
def pollReady (required : List String) (listTools : Nat → List String)
    (interval deadline : Nat) : Nat → Nat → Except Nat Nat
  | 0, _ => .error deadline
  | fuel + 1, elapsed =>
    if allPresent required (listTools elapsed) then .ok elapsed
    else if elapsed + interval < deadline then
      pollReady required listTools interval deadline fuel (elapsed + interval)
    else
      .error deadline

/-- Modelled from the spec: the `ready-on-tools(names)` readiness policy,
polling from time `0`.  `Except.error t` is a `ServerStartError` raised
at time `t`; `Except.ok t` is readiness reached at time `t`. -/
def ready_on_tools (required : List String) (listTools : Nat → List String)
    (interval deadline : Nat) : Except Nat Nat :=
  pollReady required listTools interval deadline (deadline + 1) 0

/-! ## Helper lemmas -/

/-- The turn loop performs at most `calls + budget` model round-trips. -/
theorem runLoop_calls_le (responses : Nat → ProviderResponse) :
    ∀ budget calls : Nat, (runLoop responses budget calls).2 ≤ calls + budget := by
  intro budget
  induction budget with
  | zero => intro calls; simp [runLoop]
  | succ b ih =>
    intro calls
    simp only [runLoop]
    cases hr : responses calls with
    | finalText t => simp
    | providerError m => simp
    | toolCalls cs =>
      have := ih (calls + 1)
      simp only []
      omega

/-- A string made of whitespace only strips to the empty string. -/
theorem pyStrip_eq_empty_of_all_ws (s : String)
    (h : s.toList.all isPyWhitespace = true) : pyStrip s = "" := by
  unfold pyStrip
  have h1 : s.toList.dropWhile isPyWhitespace = [] := by
    rw [List.dropWhile_eq_nil_iff]
    intro x hx
    exact List.all_eq_true.mp h x hx
  rw [h1]
  rfl

/-- A successful poll only ever terminates on a fully-present tool set. -/
theorem pollReady_ok_allPresent (required : List String)
    (listTools : Nat → List String) (interval deadline : Nat) :
    ∀ (fuel elapsed t : Nat),
      pollReady required listTools interval deadline fuel elapsed = .ok t →
      allPresent required (listTools t) = true := by
  intro fuel
  induction fuel with
  | zero => intro elapsed t h; simp [pollReady] at h
  | succ f ih =>
    intro elapsed t h
    simp only [pollReady] at h
    split at h
    · cases h
      assumption
    · split at h
      · exact ih _ _ h
      · cases h

/-- A required tool missing from the discovered set falsifies
`allPresent`: partial availability never satisfies readiness. -/
theorem allPresent_false_of_missing (required discovered : List String)
    (name : String) (hmem : name ∈ required)
    (hnot : discovered.contains name = false) :
    allPresent required discovered = false := by
  unfold allPresent
  rw [List.all_eq_false]
  exact ⟨name, hmem, by simpa using hnot⟩

/-- When no poll ever sees all required tools, the loop fails exactly at
the deadline (given enough fuel and a positive interval). -/
theorem pollReady_error_of_never (required : List String)
    (listTools : Nat → List String) (interval deadline : Nat)
    (hnever : ∀ t, allPresent required (listTools t) = false) :
    ∀ (fuel elapsed : Nat), 0 < fuel → deadline ≤ elapsed + fuel * interval →
      pollReady required listTools interval deadline fuel elapsed = .error deadline := by
  intro fuel
  induction fuel with
  | zero => intro elapsed h0; exact absurd h0 (lt_irrefl 0)
  | succ f ih =>
    intro elapsed _ hbound
    simp only [pollReady]
    rw [if_neg (by simp [hnever elapsed])]
    by_cases hlt : elapsed + interval < deadline
    · rw [if_pos hlt]
      rcases Nat.eq_zero_or_pos f with hf | hf
      · subst hf
        rw [Nat.one_mul] at hbound
        omega
      · apply ih _ hf
        rw [Nat.succ_mul] at hbound
        omega
    · rw [if_neg hlt]

/-- A list containing `c` after a `c`-free front reports `contains c`. -/
theorem contains_append_cons (c : Char) (xs ys : List Char) :
    (xs ++ c :: ys).contains c = true := by
  simp

/-- Splitting at the first separator recovers the two halves when the
front half is separator-free. -/
theorem splitCharList_append (c : Char) (xs ys : List Char) (h : c ∉ xs) :
    splitCharList c (xs ++ c :: ys) = (xs, ys) := by
  induction xs with
  | nil => simp [splitCharList]
  | cons x xs ih =>
    rw [List.cons_append]
    have hx : ¬ x = c := fun he => h (he ▸ List.mem_cons_self x xs)
    simp only [splitCharList, if_neg hx]
    rw [ih (fun hc => h (List.mem_cons_of_mem x hc))]

/-- The character list of `p ++ "/" ++ r`. -/
theorem toList_slash (p r : String) :
    (p ++ "/" ++ r).toList = p.toList ++ '/' :: r.toList := by
  simp [String.toList, String.data_append]

/-! ## Claim theorems -/

/-- C1: an engine invocation ending in the `FAILED` or
`TURN_LIMIT_EXCEEDED` terminal state returns an `AgentResult` whose
success flag is false and whose error field is populated, rather than
raising an unhandled exception. -/
theorem failed_run_returns_failed_result
    (jsonParse : String → Option (List (String × String)))
    (responses : Nat → ProviderResponse) (maxTurns : Nat)
    (priorMessages : List ModelMessage)
    (h : (runLoop responses maxTurns 0).1 = .FAILED ∨
         (runLoop responses maxTurns 0).1 = .TURN_LIMIT_EXCEEDED) :
    (engineRun jsonParse responses maxTurns priorMessages).success = false ∧
    (engineRun jsonParse responses maxTurns priorMessages).error ≠ none := by
  rcases h with h | h <;> simp [engineRun, h]

/-- Witness for C1: a run whose provider fails on the first round-trip
ends `FAILED` and yields `success = false` with a populated error. -/
theorem failed_run_returns_failed_result_witness :
    (engineRun (fun _ => none) (fun _ => ProviderResponse.providerError "boom") 1 []).success = false ∧
    (engineRun (fun _ => none) (fun _ => ProviderResponse.providerError "boom") 1 []).error ≠ none :=
  failed_run_returns_failed_result (fun _ => none)
    (fun _ => ProviderResponse.providerError "boom") 1 [] (Or.inl rfl)

/-- C2: the request limit handed to the underlying run equals the
configured `max_turns`, and the turn loop performs at most `max_turns`
model round-trips before reaching a terminal state. -/
theorem usage_limits_bound_turns (agent : Agent) :
    (build_usage_limits agent).request_limit = agent.max_turns ∧
    ∀ responses : Nat → ProviderResponse,
      (runLoop responses agent.max_turns 0).2 ≤ agent.max_turns :=
  ⟨rfl, fun responses => by simpa using runLoop_calls_le responses agent.max_turns 0⟩

/-- C3: for every response text, if the judge call raises any exception
or exceeds its time box, `check_clarification` classifies the response as
"not a clarification" (returns false) instead of propagating the
error. -/
theorem check_clarification_fails_open (text : String) (judge : JudgeOutcome)
    (h : judge = .timeout ∨ judge = .failure) :
    (check_clarification text judge).1 = false := by
  unfold check_clarification
  rcases h with h | h <;> subst h <;> split <;> rfl

/-- Witness for C3: a timed-out judge call yields `false`. -/
theorem check_clarification_fails_open_witness :
    (check_clarification "Should I proceed with the transfer?" JudgeOutcome.timeout).1 = false :=
  check_clarification_fails_open "Should I proceed with the transfer?" JudgeOutcome.timeout
    (Or.inl rfl)

/-- C4: the assembled system instructions place the skill content first
and the explicit system prompt after it, joined into one block; with only
one of the two present that one alone is used; with neither present the
instructions are absent (`None`). -/
theorem build_system_prompt_order (agent : Agent) :
    (∀ sk sp, agent.skill = some sk → agent.system_prompt = some sp → sp ≠ "" →
      build_system_prompt agent = some (sk.content ++ "\n\n" ++ sp)) ∧
    (∀ sk, agent.skill = some sk → agent.system_prompt = none →
      build_system_prompt agent = some sk.content) ∧
    (∀ sp, agent.skill = none → agent.system_prompt = some sp → sp ≠ "" →
      build_system_prompt agent = some sp) ∧
    (agent.skill = none → agent.system_prompt = none →
      build_system_prompt agent = none) := by
  refine ⟨?_, ?_, ?_, ?_⟩
  · intro sk sp hsk hsp hne
    simp [build_system_prompt, hsk, hsp, hne, joinSep]
  · intro sk hsk hsp
    simp [build_system_prompt, hsk, hsp, joinSep]
  · intro sp hsk hsp hne
    simp [build_system_prompt, hsk, hsp, hne, joinSep]
  · intro hsk hsp
    simp [build_system_prompt, hsk, hsp]

/-- Witness for C4: skill content precedes the system prompt. -/
theorem build_system_prompt_order_witness :
    build_system_prompt
      { skill := some { content := "SKILL" }, system_prompt := some "PROMPT", max_turns := 5 } =
      some ("SKILL" ++ "\n\n" ++ "PROMPT") :=
  (build_system_prompt_order
      { skill := some { content := "SKILL" }, system_prompt := some "PROMPT", max_turns := 5 }).1
    { content := "SKILL" } "PROMPT" rfl rfl (by decide)

/-- C5: every turn extracted from a message history has tool calls with
at most one of result and error populated (the adapter never sets the
error), and every non-assistant turn carries an empty tool-call list. -/
theorem extract_turns_invariants (jsonParse : String → Option (List (String × String)))
    (messages : List ModelMessage) (turn : Turn)
    (h : turn ∈ _extract_turns jsonParse messages) :
    (∀ tc ∈ turn.tool_calls, tc.result = none ∨ tc.error = none) ∧
    (turn.role ≠ "assistant" → turn.tool_calls = []) := by
  unfold _extract_turns at h
  rw [List.mem_flatMap] at h
  obtain ⟨msg, hmsg, ht⟩ := h
  cases msg with
  | request parts =>
    simp only [] at ht
    rw [List.mem_filterMap] at ht
    obtain ⟨part, hpart, hsome⟩ := ht
    cases part with
    | userPrompt c =>
      simp only [Option.some.injEq] at hsome
      subst hsome
      exact ⟨fun tc htc => absurd htc (List.not_mem_nil tc), fun _ => rfl⟩
    | sysPrompt c => simp at hsome
    | toolReturn a b => simp at hsome
  | response parts =>
    simp only [List.mem_singleton] at ht
    subst ht
    constructor
    · intro tc htc
      simp only [] at htc
      rw [List.mem_filterMap] at htc
      obtain ⟨part, hp, hs⟩ := htc
      cases part with
      | toolCall nm args id =>
        simp only [Option.some.injEq] at hs
        right
        rw [← hs]
      | text c => simp at hs
      | other => simp at hs
    · intro hrole
      exact absurd rfl hrole

/-- Witness for C5: the user turn extracted from a one-prompt history
satisfies both invariants. -/
theorem extract_turns_invariants_witness :
    (∀ tc ∈ (Turn.mk "user" "hi" []).tool_calls, tc.result = none ∨ tc.error = none) ∧
    ((Turn.mk "user" "hi" []).role ≠ "assistant" → (Turn.mk "user" "hi" []).tool_calls = []) :=
  extract_turns_invariants (fun _ => none)
    [ModelMessage.request [RequestPart.userPrompt "hi"]] (Turn.mk "user" "hi" [])
    (List.mem_singleton.mpr rfl)

/-- C6: the ready-on-tools policy is satisfied only when every required
name is in the discovered tool set, and against a server that never
exposes all required tools it fails exactly when the readiness deadline
elapses — not earlier, not later, and never hanging. -/
theorem ready_on_tools_spec (required : List String)
    (listTools : Nat → List String) (interval deadline : Nat) :
    (∀ t, ready_on_tools required listTools interval deadline = .ok t →
       allPresent required (listTools t) = true) ∧
    (0 < interval →
     (∃ name, name ∈ required ∧ ∀ t, (listTools t).contains name = false) →
     ready_on_tools required listTools interval deadline = .error deadline) := by
  constructor
  · intro t h
    exact pollReady_ok_allPresent required listTools interval deadline _ _ _ h
  · rintro hpos ⟨name, hmem, hnot⟩
    apply pollReady_error_of_never required listTools interval deadline
      (fun t => allPresent_false_of_missing required (listTools t) name hmem (hnot t))
    · omega
    · have h1 : (deadline + 1) * 1 ≤ (deadline + 1) * interval :=
        Nat.mul_le_mul_left (deadline + 1) hpos
      omega

/-- Witness for C6: polling for tools `a` and `b` against a server that
only ever exposes `a` fails exactly at the 900ms deadline. -/
theorem ready_on_tools_spec_witness :
    ready_on_tools ["a", "b"] (fun _ => ["a"]) 300 900 = .error 900 :=
  (ready_on_tools_spec ["a", "b"] (fun _ => ["a"]) 300 900).2 (by decide)
    ⟨"b", by decide, fun _ => by decide⟩

/-- C7: when the hard wall-clock deadline is exceeded, any partial
outcome (even a successful one) is discarded in favour of
`EngineTimeoutError`, and an `EngineTimeoutError` is never retried by the
retry loop regardless of the retry configuration's predicate. -/
theorem timeout_fatal_never_retried (cfg : RetryConfig) (deadline duration : Nat)
    (outcome : AttemptOutcome) (attempts : Nat → AttemptOutcome) (fuel i : Nat)
    (hd : deadline < duration) (ha : attempts i = .err .engineTimeout) :
    applyDeadline deadline duration outcome = .err .engineTimeout ∧
    retryLoop cfg attempts fuel i = (.err .engineTimeout, i + 1) := by
  constructor
  · simp [applyDeadline, hd]
  · cases fuel with
    | zero => simp [retryLoop, ha]
    | succ f => simp [retryLoop, ha]

/-- Witness for C7: a 150ms call under a 100ms deadline times out even
with a successful partial result, and a timed-out attempt stops the loop
after one attempt even when the predicate retries everything. -/
theorem timeout_fatal_never_retried_witness :
    applyDeadline 100 150
        (AttemptOutcome.ok (engineRun (fun _ => none) (fun _ => ProviderResponse.finalText "ok") 1 [])) =
      .err .engineTimeout ∧
    retryLoop { maxAttempts := 3, baseDelay := 1, backoffMultiplier := 2, retryable := fun _ => true }
        (fun _ => AttemptOutcome.err GovError.engineTimeout) 3 0 =
      (.err .engineTimeout, 1) :=
  timeout_fatal_never_retried
    { maxAttempts := 3, baseDelay := 1, backoffMultiplier := 2, retryable := fun _ => true }
    100 150
    (AttemptOutcome.ok (engineRun (fun _ => none) (fun _ => ProviderResponse.finalText "ok") 1 []))
    (fun _ => AttemptOutcome.err GovError.engineTimeout) 3 0 (by decide) rfl

/-- C8: the returned `AgentResult` records the count of turns carried in
from prior messages, a result is a session continuation exactly when that
count is positive, and an invocation with no prior messages yields count
zero. -/
theorem session_context_recorded (jsonParse : String → Option (List (String × String)))
    (pr : PydanticRunResult) (now start_time : Nat) (tools : List String)
    (skill : Option String) (esp : String) (k : Nat) :
    (adapt_result jsonParse pr now start_time tools skill esp k).session_context_count = some k ∧
    ((is_session_continuation (adapt_result jsonParse pr now start_time tools skill esp k)) = true ↔ 0 < k) ∧
    ∀ (responses : Nat → ProviderResponse) (maxTurns : Nat),
      (engineRun jsonParse responses maxTurns []).session_context_count = some 0 ∧
      is_session_continuation (engineRun jsonParse responses maxTurns []) = false := by
  refine ⟨rfl, ?_, ?_⟩
  · simp [is_session_continuation, adapt_result]
  · intro responses maxTurns
    cases h : (runLoop responses maxTurns 0).1 <;>
      simp [engineRun, h, is_session_continuation, _extract_turns]

/-- C9: a response text that is empty or whitespace-only is classified
`false` without any judge call being issued. -/
theorem check_clarification_blank (text : String) (judge : JudgeOutcome)
    (h : text.toList.all isPyWhitespace = true) :
    check_clarification text judge = (false, false) := by
  unfold check_clarification
  rw [if_pos (Or.inr (pyStrip_eq_empty_of_all_ws text h))]

/-- Witness for C9: whitespace-only input returns `false` with no judge
call, whatever the judge would have answered. -/
theorem check_clarification_blank_witness :
    check_clarification "  \n" (JudgeOutcome.answer "YES") = (false, false) :=
  check_clarification_blank "  \n" (JudgeOutcome.answer "YES") (by decide)

/-- C10: an `azure/` model string raises `ValueError` when neither
`AZURE_API_BASE` nor `AZURE_OPENAI_ENDPOINT` is set, and a non-Azure
`provider/model` string is returned as `provider:model` with the content
unchanged. -/
theorem model_string_resolution (env : String → Option String) (s p r : String) :
    (pyStartsWith s "azure/" = true → env "AZURE_API_BASE" = none →
      env "AZURE_OPENAI_ENDPOINT" = none →
      build_model_from_string env s = .error azureEndpointErr) ∧
    (pyStartsWith (p ++ "/" ++ r) "azure/" = false → '/' ∉ p.toList →
      build_model_from_string env (p ++ "/" ++ r) = .ok (.name (p ++ ":" ++ r))) := by
  constructor
  · intro hz h1 h2
    simp [build_model_from_string, hz, _build_azure_model, pyOr, h1, h2, strTruthy]
  · intro hz hp
    simp only [build_model_from_string, hz, Bool.false_eq_true, if_false]
    rw [toList_slash]
    rw [if_pos (contains_append_cons '/' p.toList r.toList)]
    rw [splitCharList_append '/' p.toList r.toList hp]
    rfl

/-- Witness for C10: with an empty environment, `azure/gpt-5-mini` raises
and `openai/gpt-4` resolves to `openai:gpt-4`. -/
theorem model_string_resolution_witness :
    build_model_from_string (fun _ => none) "azure/gpt-5-mini" = .error azureEndpointErr ∧
    build_model_from_string (fun _ => none) ("openai" ++ "/" ++ "gpt-4") =
      .ok (.name ("openai" ++ ":" ++ "gpt-4")) :=
  ⟨(model_string_resolution (fun _ => none) "azure/gpt-5-mini" "openai" "gpt-4").1
      (by decide) rfl rfl,
   (model_string_resolution (fun _ => none) "azure/gpt-5-mini" "openai" "gpt-4").2
      (by decide) (by decide)⟩

end PytestAitest
